import Mathlib

/-!
Shallow embedding of the shortcut-mcp-server repository (src/index.ts):
a Shortcut REST client (`ShortcutAPI`) and an MCP tool dispatcher
(`ShortcutMCPServer`) with a single configuration gate.

JavaScript runtime values that flow through the dispatcher (tool argument
objects, parsed JSON response bodies) are modelled by `JsonValue`, which
includes `undefined` for the JavaScript value `undefined`.  The remote HTTP
service is modelled as a deterministic function from requests to responses
(`World`); each client operation records the single request it issues, so
theorems can speak about the exact requests a tool call makes.
-/

/-- Model of a JavaScript runtime value as it appears in this program:
JSON data plus the distinguished value `undefined`.  Numbers are modelled
as integers (every number this program manipulates is an identifier,
estimate or similar integral value). -/
inductive JsonValue where
  | undefined : JsonValue
  | null : JsonValue
  | bool (b : Bool) : JsonValue
  | num (n : Int) : JsonValue
  | str (s : String) : JsonValue
  | arr (elems : List JsonValue) : JsonValue
  | obj (fields : List (String × JsonValue)) : JsonValue

/-- JavaScript truthiness, as used by `if (params?.project_id)` and
`config.baseUrl || default` in the source. -/
def truthy : JsonValue → Bool
  | .undefined => false
  | .null => false
  | .bool b => b
  | .num n => n ≠ 0
  | .str s => s ≠ ""
  | .arr _ => true
  | .obj _ => true

/-- Property access `v.k` (also matching destructuring `const \x7b k \x7d = v`):
on a non-object, or when the key is absent, the result is `undefined`. -/
def JsonValue.get (v : JsonValue) (k : String) : JsonValue :=
  match v with
  | .obj fields => (fields.lookup k).getD .undefined
  | _ => .undefined

/-- Lowercase hexadecimal digit, used by the JSON string escaper. -/
def hexDigitLower (n : Nat) : String :=
  String.singleton (if n < 10 then Char.ofNat (48 + n) else Char.ofNat (87 + n))

/-- Escape of one character inside a JSON string literal, following
`JSON.stringify`. -/
def escapeJsonChar (c : Char) : String :=
  if c = '"' then "\\\""
  else if c = '\\' then "\\\\"
  else if c = '\n' then "\\n"
  else if c = '\r' then "\\r"
  else if c = '\t' then "\\t"
  else if c = '\x08' then "\\b"
  else if c = '\x0c' then "\\f"
  else if c.toNat < 32 then "\\u00" ++ hexDigitLower (c.toNat / 16) ++ hexDigitLower (c.toNat % 16)
  else String.singleton c

/-- JSON string literal for `s`, with quotes. -/
def jsonQuote (s : String) : String :=
  "\"" ++ String.join (s.data.map escapeJsonChar) ++ "\""

mutual

/-- Compact serialization `JSON.stringify(v)`.  Returns `none` exactly when
JavaScript returns `undefined` (top-level `undefined`). -/
def stringifyVal : JsonValue → Option String
  | .undefined => none
  | .null => some "null"
  | .bool b => some (if b then "true" else "false")
  | .num n => some (toString n)
  | .str s => some (jsonQuote s)
  | .arr elems => some ("[" ++ String.intercalate "," (stringifyArr elems) ++ "]")
  | .obj fields => some ("\x7b" ++ String.intercalate "," (stringifyObj fields) ++ "\x7d")

/-- Array elements under `JSON.stringify`: `undefined` becomes `null`. -/
def stringifyArr : List JsonValue → List String
  | [] => []
  | v :: rest => ((stringifyVal v).getD "null") :: stringifyArr rest

/-- Object entries under `JSON.stringify`: entries whose value serializes to
`undefined` are skipped. -/
def stringifyObj : List (String × JsonValue) → List String
  | [] => []
  | (k, v) :: rest =>
    match stringifyVal v with
    | some s => (jsonQuote k ++ ":" ++ s) :: stringifyObj rest
    | none => stringifyObj rest

end

/-- Indentation of `2 * d` spaces used by `JSON.stringify(v, null, 2)`. -/
def jsonIndent (d : Nat) : String :=
  String.mk (List.replicate (2 * d) ' ')

mutual

/-- Pretty serialization `JSON.stringify(v, null, 2)` at nesting depth `d`;
`none` exactly when JavaScript returns `undefined`. -/
def prettyVal : JsonValue → Nat → Option String
  | .undefined, _ => none
  | .null, _ => some "null"
  | .bool b, _ => some (if b then "true" else "false")
  | .num n, _ => some (toString n)
  | .str s, _ => some (jsonQuote s)
  | .arr [], _ => some "[]"
  | .arr (v :: rest), d =>
    some ("[\n" ++ String.intercalate ",\n" (prettyArr (v :: rest) (d + 1)) ++
          "\n" ++ jsonIndent d ++ "]")
  | .obj [], _ => some "\x7b\x7d"
  | .obj ((k, v) :: rest), d =>
    some ("\x7b\n" ++ String.intercalate ",\n" (prettyObj ((k, v) :: rest) (d + 1)) ++
          "\n" ++ jsonIndent d ++ "\x7d")

/-- Array elements of the pretty serialization, each on its own line. -/
def prettyArr : List JsonValue → Nat → List String
  | [], _ => []
  | v :: rest, d => (jsonIndent d ++ (prettyVal v d).getD "null") :: prettyArr rest d

/-- Object entries of the pretty serialization; entries whose value
serializes to `undefined` are skipped. -/
def prettyObj : List (String × JsonValue) → Nat → List String
  | [], _ => []
  | (k, v) :: rest, d =>
    match prettyVal v d with
    | some s => (jsonIndent d ++ jsonQuote k ++ ": " ++ s) :: prettyObj rest d
    | none => prettyObj rest d

end

/-- Pretty-printed JSON text as interpolated by the tool handlers
(`JSON.stringify(x, null, 2)`). -/
def prettyJson (v : JsonValue) : String :=
  (prettyVal v 0).getD "undefined"

mutual

/-- JavaScript string coercion `String(v)`, as performed by template
literals such as the URL interpolation of an identifier. -/
def jsToString : JsonValue → String
  | .undefined => "undefined"
  | .null => "null"
  | .bool b => if b then "true" else "false"
  | .num n => toString n
  | .str s => s
  | .arr elems => String.intercalate "," (jsToStringArr elems)
  | .obj _ => "[object Object]"

/-- Array elements under `Array.prototype.toString`: `null` and `undefined`
become the empty string. -/
def jsToStringArr : List JsonValue → List String
  | [] => []
  | .undefined :: rest => "" :: jsToStringArr rest
  | .null :: rest => "" :: jsToStringArr rest
  | v :: rest => jsToString v :: jsToStringArr rest

end

/-- Uppercase hexadecimal digit, used by percent-encoding. -/
def hexDigitUpper (n : Nat) : String :=
  String.singleton (if n < 10 then Char.ofNat (48 + n) else Char.ofNat (55 + n))

/-- Percent-encoding of the UTF-8 bytes of one character. -/
def percentEncodeChar (c : Char) : String :=
  String.join (((String.singleton c).toUTF8.toList).map
    (fun b => "%" ++ hexDigitUpper (b.toNat / 16) ++ hexDigitUpper (b.toNat % 16)))

/-- Characters left unencoded by `URLSearchParams` serialization
(application/x-www-form-urlencoded). -/
def isFormSafe (c : Char) : Bool :=
  c.isAlphanum || c = '*' || c = '-' || c = '.' || c = '_'

/-- One character of `URLSearchParams.toString()` output. -/
def formEncodeChar (c : Char) : String :=
  if isFormSafe c then String.singleton c
  else if c = ' ' then "+"
  else percentEncodeChar c

/-- Serialization of one key or value by `URLSearchParams.toString()`. -/
def formEncode (s : String) : String :=
  String.join (s.data.map formEncodeChar)

/-- Characters left unencoded by `encodeURIComponent`. -/
def isUriComponentSafe (c : Char) : Bool :=
  c.isAlphanum || c = '-' || c = '_' || c = '.' || c = '!' || c = '~' ||
    c = '*' || c = '\x27' || c = '(' || c = ')'

/-- JavaScript `encodeURIComponent`. -/
def encodeURIComponent (s : String) : String :=
  String.join (s.data.map
    (fun c => if isUriComponentSafe c then String.singleton c else percentEncodeChar c))

/-- Serialization of an appended key/value list by
`URLSearchParams.toString()`. -/
def formParamsToString (params : List (String × String)) : String :=
  String.intercalate "&" (params.map (fun p => formEncode p.1 ++ "=" ++ formEncode p.2))

/-- One HTTP request as assembled by `ShortcutAPI.makeRequest`: method,
full URL, headers, and optional serialized body. -/
structure HttpRequest where
  method : String
  url : String
  headers : List (String × String)
  body : Option String
deriving DecidableEq

/-- One HTTP response from the remote service: status code, raw body text
(`response.text()`), and the JSON parse of the body (`response.json()`,
`Except.error` when the body does not parse, e.g. when it is empty). -/
structure HttpResponse where
  status : Nat
  text : String
  json : Except String JsonValue

/-- `response.ok`: status in the range 200 to 299. -/
def HttpResponse.ok (r : HttpResponse) : Bool :=
  decide (200 ≤ r.status) && decide (r.status < 300)

/-- The remote service, modelled as a deterministic function from the
request issued to the response received. -/
def World : Type := HttpRequest → HttpResponse

/-- Configuration record destructured from the configure tool arguments:
`\x7b apiToken, baseUrl \x7d`.  Both fields are raw JavaScript values
(either may be `undefined`). -/
structure ShortcutConfig where
  apiToken : JsonValue
  baseUrl : JsonValue

/-- Default production base URL from the `ShortcutAPI` constructor. -/
def defaultBaseUrl : String := "https://api.app.shortcut.com/api/v3"

/-- The remote client: holds the configuration and the resolved base URL
(`config.baseUrl || default`). -/
structure ShortcutAPI where
  config : ShortcutConfig
  baseUrl : String

/-- The `ShortcutAPI` constructor: resolves the base URL by JavaScript
truthiness of the override. -/
def ShortcutAPI.make (config : ShortcutConfig) : ShortcutAPI :=
  { config := config,
    baseUrl := if truthy config.baseUrl then jsToString config.baseUrl else defaultBaseUrl }

namespace ShortcutAPI

/-- The request `makeRequest` assembles for a given endpoint, method and
optional body: base URL prepended, fixed content-type and token headers. -/
def requestFor (api : ShortcutAPI) (method endpoint : String) (body : Option String) :
    HttpRequest :=
  { method := method,
    url := api.baseUrl ++ endpoint,
    headers := [("Content-Type", "application/json"),
                ("Shortcut-Token", jsToString api.config.apiToken)],
    body := body }

/-- `makeRequest`: issue one request; on a non-2xx status throw
`Error("Shortcut API error (status): bodyText")`; otherwise return
`response.json()` (whose parse failure also throws).  The first component
is the list of requests issued. -/
def makeRequest (api : ShortcutAPI) (world : World) (method endpoint : String)
    (body : Option String) : List HttpRequest × Except String JsonValue :=
  let req := api.requestFor method endpoint body
  let resp := world req
  if resp.ok then
    ([req], resp.json)
  else
    ([req], .error ("Shortcut API error (" ++ toString resp.status ++ "): " ++ resp.text))

/-- Query-string portion of `getStories`: each of the four filters is
appended only when truthy, in source order. -/
def storiesQueryParams (params : JsonValue) : List (String × String) :=
  (if truthy (params.get "project_id")
    then [("project_id", jsToString (params.get "project_id"))] else []) ++
  (if truthy (params.get "epic_id")
    then [("epic_id", jsToString (params.get "epic_id"))] else []) ++
  (if truthy (params.get "includes_description")
    then [("includes_description", "true")] else []) ++
  (if truthy (params.get "workflow_state_id")
    then [("workflow_state_id", jsToString (params.get "workflow_state_id"))] else [])

/-- `getStories`: POST to `/stories/search` with truthy filters in the query
string and `JSON.stringify(params || \x7b\x7d)` as the body. -/
def getStories (api : ShortcutAPI) (world : World) (params : JsonValue) :
    List HttpRequest × Except String JsonValue :=
  let qs := formParamsToString (storiesQueryParams params)
  let query := if qs = "" then "" else "?" ++ qs
  api.makeRequest world "POST" ("/stories/search" ++ query)
    (stringifyVal (if truthy params then params else .obj []))

/-- `getStory`: GET `/stories/$\x7bid\x7d`. -/
def getStory (api : ShortcutAPI) (world : World) (id : JsonValue) :
    List HttpRequest × Except String JsonValue :=
  api.makeRequest world "GET" ("/stories/" ++ jsToString id) none

/-- `createStory`: POST `/stories` with the story as JSON body. -/
def createStory (api : ShortcutAPI) (world : World) (story : JsonValue) :
    List HttpRequest × Except String JsonValue :=
  api.makeRequest world "POST" "/stories" (stringifyVal story)

/-- `updateStory`: PUT `/stories/$\x7bid\x7d` with the updates as JSON body. -/
def updateStory (api : ShortcutAPI) (world : World) (id updates : JsonValue) :
    List HttpRequest × Except String JsonValue :=
  api.makeRequest world "PUT" ("/stories/" ++ jsToString id) (stringifyVal updates)

/-- `deleteStory`: DELETE `/stories/$\x7bid\x7d`; the awaited `makeRequest`
result (including its `response.json()` parse) is propagated, its value
discarded by the caller. -/
def deleteStory (api : ShortcutAPI) (world : World) (id : JsonValue) :
    List HttpRequest × Except String JsonValue :=
  api.makeRequest world "DELETE" ("/stories/" ++ jsToString id) none

/-- `getEpics`: GET `/epics`. -/
def getEpics (api : ShortcutAPI) (world : World) :
    List HttpRequest × Except String JsonValue :=
  api.makeRequest world "GET" "/epics" none

/-- `getEpic`: GET `/epics/$\x7bid\x7d`. -/
def getEpic (api : ShortcutAPI) (world : World) (id : JsonValue) :
    List HttpRequest × Except String JsonValue :=
  api.makeRequest world "GET" ("/epics/" ++ jsToString id) none

/-- `createEpic`: POST `/epics` with the epic as JSON body. -/
def createEpic (api : ShortcutAPI) (world : World) (epic : JsonValue) :
    List HttpRequest × Except String JsonValue :=
  api.makeRequest world "POST" "/epics" (stringifyVal epic)

/-- `updateEpic`: PUT `/epics/$\x7bid\x7d` with the updates as JSON body. -/
def updateEpic (api : ShortcutAPI) (world : World) (id updates : JsonValue) :
    List HttpRequest × Except String JsonValue :=
  api.makeRequest world "PUT" ("/epics/" ++ jsToString id) (stringifyVal updates)

/-- `getProjects`: GET `/projects`. -/
def getProjects (api : ShortcutAPI) (world : World) :
    List HttpRequest × Except String JsonValue :=
  api.makeRequest world "GET" "/projects" none

/-- `getProject`: GET `/projects/$\x7bid\x7d`. -/
def getProject (api : ShortcutAPI) (world : World) (id : JsonValue) :
    List HttpRequest × Except String JsonValue :=
  api.makeRequest world "GET" ("/projects/" ++ jsToString id) none

/-- `createProject`: POST `/projects` with the project as JSON body. -/
def createProject (api : ShortcutAPI) (world : World) (project : JsonValue) :
    List HttpRequest × Except String JsonValue :=
  api.makeRequest world "POST" "/projects" (stringifyVal project)

/-- `getMembers`: GET `/members`. -/
def getMembers (api : ShortcutAPI) (world : World) :
    List HttpRequest × Except String JsonValue :=
  api.makeRequest world "GET" "/members" none

/-- `getCurrentMember`: GET `/member`; also used as the configure probe. -/
def getCurrentMember (api : ShortcutAPI) (world : World) :
    List HttpRequest × Except String JsonValue :=
  api.makeRequest world "GET" "/member" none

/-- `getLabels`: GET `/labels`. -/
def getLabels (api : ShortcutAPI) (world : World) :
    List HttpRequest × Except String JsonValue :=
  api.makeRequest world "GET" "/labels" none

/-- `createLabel`: POST `/labels` with the label as JSON body. -/
def createLabel (api : ShortcutAPI) (world : World) (label : JsonValue) :
    List HttpRequest × Except String JsonValue :=
  api.makeRequest world "POST" "/labels" (stringifyVal label)

/-- `getIterations`: GET `/iterations`. -/
def getIterations (api : ShortcutAPI) (world : World) :
    List HttpRequest × Except String JsonValue :=
  api.makeRequest world "GET" "/iterations" none

/-- `getIteration`: GET `/iterations/$\x7bid\x7d`. -/
def getIteration (api : ShortcutAPI) (world : World) (id : JsonValue) :
    List HttpRequest × Except String JsonValue :=
  api.makeRequest world "GET" ("/iterations/" ++ jsToString id) none

/-- `createIteration`: POST `/iterations` with the iteration as JSON body. -/
def createIteration (api : ShortcutAPI) (world : World) (iteration : JsonValue) :
    List HttpRequest × Except String JsonValue :=
  api.makeRequest world "POST" "/iterations" (stringifyVal iteration)

/-- `search`: GET `/search?query=...&detail=...` with the query
percent-encoded by `encodeURIComponent`. -/
def search (api : ShortcutAPI) (world : World) (query detail : JsonValue) :
    List HttpRequest × Except String JsonValue :=
  api.makeRequest world "GET"
    ("/search?query=" ++ encodeURIComponent (jsToString query) ++
      "&detail=" ++ jsToString detail) none

/-- `getWorkflows`: GET `/workflows`. -/
def getWorkflows (api : ShortcutAPI) (world : World) :
    List HttpRequest × Except String JsonValue :=
  api.makeRequest world "GET" "/workflows" none

end ShortcutAPI

/-- MCP error codes used by the dispatcher. -/
inductive ErrorCode where
  | InvalidRequest : ErrorCode
  | MethodNotFound : ErrorCode
  | InternalError : ErrorCode
deriving DecidableEq

/-- `McpError`: a typed dispatcher error with a code and a message. -/
structure McpError where
  code : ErrorCode
  message : String
deriving DecidableEq

/-- A thrown JavaScript value inside the dispatcher: either a typed
`McpError` or a generic `Error` carrying its message. -/
inductive JsError where
  | mcp (e : McpError) : JsError
  | err (message : String) : JsError
deriving DecidableEq

/-- The `message` property read by the handlers
(`error instanceof Error ? error.message : String(error)`). -/
def JsError.text : JsError → String
  | .mcp e => e.message
  | .err m => m

/-- One `\x7b type: "text", text \x7d` content block of a tool response. -/
structure TextContent where
  text : String
deriving DecidableEq

/-- A successful tool response: a list of content blocks. -/
structure ToolResult where
  content : List TextContent
deriving DecidableEq

/-- The single-text-block response shape every handler returns. -/
def textResult (s : String) : ToolResult :=
  { content := [{ text := s }] }

/-- The configuration-gate error message. -/
def notConfiguredMessage : String :=
  "Shortcut API not configured. Please run shortcut_configure first."

/-- The prospective client `new ShortcutAPI(\x7b apiToken, baseUrl \x7d)`
built by `handleConfigure` from the tool arguments. -/
def configApi (args : JsonValue) : ShortcutAPI :=
  ShortcutAPI.make { apiToken := args.get "apiToken", baseUrl := args.get "baseUrl" }

/-- The identity-probe request (`GET /member`) that `handleConfigure`
issues through the prospective client. -/
def probeRequest (args : JsonValue) : HttpRequest :=
  (configApi args).requestFor "GET" "/member" none

namespace ShortcutMCPServer

/-- `handleConfigure`: destructure the token and base URL from the
arguments, install a prospective client, probe it with `getCurrentMember`;
on success keep it and report success, on failure null the client and
throw `InvalidRequest` wrapping the cause.  Returns the new dispatcher
state, the requests issued, and the outcome. -/
def handleConfigure (world : World) (args : JsonValue) :
    Option ShortcutAPI × List HttpRequest × Except JsError ToolResult :=
  let api := configApi args
  let probe := api.getCurrentMember world
  match probe.2 with
  | .ok _ =>
    (some api, probe.1, .ok (textResult "Shortcut API configured successfully!"))
  | .error e =>
    (none, probe.1,
      .error (.mcp { code := .InvalidRequest,
                     message := "Failed to configure Shortcut API: " ++ e }))

/-- `handleGetStories`: pass the argument object through as filters and
pretty-print the resulting story list. -/
def handleGetStories (api : ShortcutAPI) (world : World) (args : JsonValue) :
    List HttpRequest × Except JsError ToolResult :=
  let r := api.getStories world args
  (r.1, (r.2.mapError .err).map (fun v => textResult (prettyJson v)))

/-- `handleGetStory`: destructure `id` and pretty-print the story. -/
def handleGetStory (api : ShortcutAPI) (world : World) (args : JsonValue) :
    List HttpRequest × Except JsError ToolResult :=
  let r := api.getStory world (args.get "id")
  (r.1, (r.2.mapError .err).map (fun v => textResult (prettyJson v)))

/-- `handleCreateStory`: pass the arguments as the story payload and prefix
the pretty response with a confirmation line. -/
def handleCreateStory (api : ShortcutAPI) (world : World) (args : JsonValue) :
    List HttpRequest × Except JsError ToolResult :=
  let r := api.createStory world args
  (r.1, (r.2.mapError .err).map
    (fun v => textResult ("Story created successfully!\n" ++ prettyJson v)))

/-- The rest object `updates` of `const \x7b id, ...updates \x7d = args`:
every field of the argument object except `id`. -/
def restWithoutId (args : JsonValue) : JsonValue :=
  match args with
  | .obj fields => .obj (fields.filter (fun p => p.1 ≠ "id"))
  | _ => .obj []

/-- `handleUpdateStory`: split `id` from the remaining fields, send the
rest as the update payload, prefix the pretty response with a confirmation
line. -/
def handleUpdateStory (api : ShortcutAPI) (world : World) (args : JsonValue) :
    List HttpRequest × Except JsError ToolResult :=
  let r := api.updateStory world (args.get "id") (restWithoutId args)
  (r.1, (r.2.mapError .err).map
    (fun v => textResult ("Story updated successfully!\n" ++ prettyJson v)))

/-- `handleDeleteStory`: destructure `id`, await the delete, and confirm
with a text containing the identifier. -/
def handleDeleteStory (api : ShortcutAPI) (world : World) (args : JsonValue) :
    List HttpRequest × Except JsError ToolResult :=
  let r := api.deleteStory world (args.get "id")
  (r.1, (r.2.mapError .err).map
    (fun _ => textResult ("Story " ++ jsToString (args.get "id") ++ " deleted successfully!")))

/-- `handleGetEpics`. -/
def handleGetEpics (api : ShortcutAPI) (world : World) :
    List HttpRequest × Except JsError ToolResult :=
  let r := api.getEpics world
  (r.1, (r.2.mapError .err).map (fun v => textResult (prettyJson v)))

/-- `handleGetEpic`. -/
def handleGetEpic (api : ShortcutAPI) (world : World) (args : JsonValue) :
    List HttpRequest × Except JsError ToolResult :=
  let r := api.getEpic world (args.get "id")
  (r.1, (r.2.mapError .err).map (fun v => textResult (prettyJson v)))

/-- `handleCreateEpic`. -/
def handleCreateEpic (api : ShortcutAPI) (world : World) (args : JsonValue) :
    List HttpRequest × Except JsError ToolResult :=
  let r := api.createEpic world args
  (r.1, (r.2.mapError .err).map
    (fun v => textResult ("Epic created successfully!\n" ++ prettyJson v)))

/-- `handleUpdateEpic`. -/
def handleUpdateEpic (api : ShortcutAPI) (world : World) (args : JsonValue) :
    List HttpRequest × Except JsError ToolResult :=
  let r := api.updateEpic world (args.get "id") (restWithoutId args)
  (r.1, (r.2.mapError .err).map
    (fun v => textResult ("Epic updated successfully!\n" ++ prettyJson v)))

/-- `handleGetProjects`. -/
def handleGetProjects (api : ShortcutAPI) (world : World) :
    List HttpRequest × Except JsError ToolResult :=
  let r := api.getProjects world
  (r.1, (r.2.mapError .err).map (fun v => textResult (prettyJson v)))

/-- `handleGetProject`. -/
def handleGetProject (api : ShortcutAPI) (world : World) (args : JsonValue) :
    List HttpRequest × Except JsError ToolResult :=
  let r := api.getProject world (args.get "id")
  (r.1, (r.2.mapError .err).map (fun v => textResult (prettyJson v)))

/-- `handleCreateProject`. -/
def handleCreateProject (api : ShortcutAPI) (world : World) (args : JsonValue) :
    List HttpRequest × Except JsError ToolResult :=
  let r := api.createProject world args
  (r.1, (r.2.mapError .err).map
    (fun v => textResult ("Project created successfully!\n" ++ prettyJson v)))

/-- `handleGetMembers`. -/
def handleGetMembers (api : ShortcutAPI) (world : World) :
    List HttpRequest × Except JsError ToolResult :=
  let r := api.getMembers world
  (r.1, (r.2.mapError .err).map (fun v => textResult (prettyJson v)))

/-- `handleGetCurrentMember`. -/
def handleGetCurrentMember (api : ShortcutAPI) (world : World) :
    List HttpRequest × Except JsError ToolResult :=
  let r := api.getCurrentMember world
  (r.1, (r.2.mapError .err).map (fun v => textResult (prettyJson v)))

/-- `handleGetLabels`. -/
def handleGetLabels (api : ShortcutAPI) (world : World) :
    List HttpRequest × Except JsError ToolResult :=
  let r := api.getLabels world
  (r.1, (r.2.mapError .err).map (fun v => textResult (prettyJson v)))

/-- `handleCreateLabel`. -/
def handleCreateLabel (api : ShortcutAPI) (world : World) (args : JsonValue) :
    List HttpRequest × Except JsError ToolResult :=
  let r := api.createLabel world args
  (r.1, (r.2.mapError .err).map
    (fun v => textResult ("Label created successfully!\n" ++ prettyJson v)))

/-- `handleGetIterations`. -/
def handleGetIterations (api : ShortcutAPI) (world : World) :
    List HttpRequest × Except JsError ToolResult :=
  let r := api.getIterations world
  (r.1, (r.2.mapError .err).map (fun v => textResult (prettyJson v)))

/-- `handleGetIteration`. -/
def handleGetIteration (api : ShortcutAPI) (world : World) (args : JsonValue) :
    List HttpRequest × Except JsError ToolResult :=
  let r := api.getIteration world (args.get "id")
  (r.1, (r.2.mapError .err).map (fun v => textResult (prettyJson v)))

/-- `handleCreateIteration`. -/
def handleCreateIteration (api : ShortcutAPI) (world : World) (args : JsonValue) :
    List HttpRequest × Except JsError ToolResult :=
  let r := api.createIteration world args
  (r.1, (r.2.mapError .err).map
    (fun v => textResult ("Iteration created successfully!\n" ++ prettyJson v)))

/-- `handleSearch`: destructure `query` and `detail` (the latter defaulting
to `full` when `undefined`). -/
def handleSearch (api : ShortcutAPI) (world : World) (args : JsonValue) :
    List HttpRequest × Except JsError ToolResult :=
  let detail := match args.get "detail" with
    | .undefined => JsonValue.str "full"
    | v => v
  let r := api.search world (args.get "query") detail
  (r.1, (r.2.mapError .err).map (fun v => textResult (prettyJson v)))

/-- `handleGetWorkflows`. -/
def handleGetWorkflows (api : ShortcutAPI) (world : World) :
    List HttpRequest × Except JsError ToolResult :=
  let r := api.getWorkflows world
  (r.1, (r.2.mapError .err).map (fun v => textResult (prettyJson v)))

/-- The switch statement over a non-configure tool name, as run once the
configuration gate has passed with a live client `api`; the default case is
the Method-Not-Found throw naming the unknown tool. -/
def dispatchConfigured (api : ShortcutAPI) (world : World) (name : String)
    (args : JsonValue) : List HttpRequest × Except JsError ToolResult :=
  if name = "shortcut_get_stories" then handleGetStories api world args
  else if name = "shortcut_get_story" then handleGetStory api world args
  else if name = "shortcut_create_story" then handleCreateStory api world args
  else if name = "shortcut_update_story" then handleUpdateStory api world args
  else if name = "shortcut_delete_story" then handleDeleteStory api world args
  else if name = "shortcut_get_epics" then handleGetEpics api world
  else if name = "shortcut_get_epic" then handleGetEpic api world args
  else if name = "shortcut_create_epic" then handleCreateEpic api world args
  else if name = "shortcut_update_epic" then handleUpdateEpic api world args
  else if name = "shortcut_get_projects" then handleGetProjects api world
  else if name = "shortcut_get_project" then handleGetProject api world args
  else if name = "shortcut_create_project" then handleCreateProject api world args
  else if name = "shortcut_get_members" then handleGetMembers api world
  else if name = "shortcut_get_current_member" then handleGetCurrentMember api world
  else if name = "shortcut_get_labels" then handleGetLabels api world
  else if name = "shortcut_create_label" then handleCreateLabel api world args
  else if name = "shortcut_get_iterations" then handleGetIterations api world
  else if name = "shortcut_get_iteration" then handleGetIteration api world args
  else if name = "shortcut_create_iteration" then handleCreateIteration api world args
  else if name = "shortcut_search" then handleSearch api world args
  else if name = "shortcut_get_workflows" then handleGetWorkflows api world
  else ([], .error (.mcp { code := .MethodNotFound, message := "Unknown tool: " ++ name }))

/-- The catch block of the call-tool handler: an `McpError` propagates
unchanged, any other error is re-thrown as `InternalError` wrapping the
tool name and the underlying message. -/
def wrapThrown (name : String) : JsError → McpError
  | .mcp e => e
  | .err m => { code := .InternalError, message := "Error executing " ++ name ++ ": " ++ m }

/-- The observable outcome of one call-tool request: the dispatcher state
afterwards, the HTTP requests issued, and the protocol result. -/
structure CallOutcome where
  state : Option ShortcutAPI
  trace : List HttpRequest
  result : Except McpError ToolResult

/-- The call-tool request handler: the configuration gate (throwing
`InvalidRequest` when no client is installed and the tool is not
`shortcut_configure`), then the switch, wrapped in the catch block. -/
def callTool (state : Option ShortcutAPI) (world : World) (name : String)
    (args : JsonValue) : CallOutcome :=
  match state with
  | none =>
    if name = "shortcut_configure" then
      let c := handleConfigure world args
      { state := c.1, trace := c.2.1, result := c.2.2.mapError (wrapThrown name) }
    else
      { state := none, trace := [],
        result := .error { code := .InvalidRequest, message := notConfiguredMessage } }
  | some api =>
    if name = "shortcut_configure" then
      let c := handleConfigure world args
      { state := c.1, trace := c.2.1, result := c.2.2.mapError (wrapThrown name) }
    else
      let r := dispatchConfigured api world name args
      { state := some api, trace := r.1, result := r.2.mapError (wrapThrown name) }

end ShortcutMCPServer

/-- The names of the static tool catalog returned by the list-tools
handler, in registration order. -/
def catalogNames : List String :=
  ["shortcut_configure", "shortcut_get_stories", "shortcut_get_story",
   "shortcut_create_story", "shortcut_update_story", "shortcut_delete_story",
   "shortcut_get_epics", "shortcut_get_epic", "shortcut_create_epic",
   "shortcut_update_epic", "shortcut_get_projects", "shortcut_get_project",
   "shortcut_create_project", "shortcut_get_members", "shortcut_get_current_member",
   "shortcut_get_labels", "shortcut_create_label", "shortcut_get_iterations",
   "shortcut_get_iteration", "shortcut_create_iteration", "shortcut_search",
   "shortcut_get_workflows"]

/-- A remote service on which every request fails with status 500 and body
`boom`. -/
def failWorld : World := fun _ =>
  { status := 500, text := "boom", json := .error "parse error" }

/-- A sample client configured with token `tok` and the default base URL. -/
def sampleApi : ShortcutAPI :=
  ShortcutAPI.make { apiToken := .str "tok", baseUrl := .undefined }

/-- Helper: the trace of `makeRequest` is the single assembled request,
whatever the response. -/
theorem makeRequest_trace (api : ShortcutAPI) (world : World) (m ep : String)
    (b : Option String) :
    (api.makeRequest world m ep b).1 = [api.requestFor m ep b] := by
  simp only [ShortcutAPI.makeRequest]
  split <;> rfl

/-- Helper: `makeRequest` against a uniformly failing remote issues its one
request and throws the message carrying status code and raw body text. -/
theorem makeRequest_fail (world : World) (hw : ∀ r, (world r).ok = false)
    (api : ShortcutAPI) (m ep : String) (b : Option String) :
    api.makeRequest world m ep b =
      ([api.requestFor m ep b],
        .error ("Shortcut API error (" ++ toString (world (api.requestFor m ep b)).status
          ++ "): " ++ (world (api.requestFor m ep b)).text)) := by
  simp [ShortcutAPI.makeRequest, hw]

/-- Helper: `makeRequest` on a 2xx response with a parseable body returns
the parsed JSON. -/
theorem makeRequest_ok (world : World) (api : ShortcutAPI) (m ep : String)
    (b : Option String) (v : JsonValue)
    (hok : (world (api.requestFor m ep b)).ok = true)
    (hjson : (world (api.requestFor m ep b)).json = .ok v) :
    api.makeRequest world m ep b = ([api.requestFor m ep b], .ok v) := by
  simp [ShortcutAPI.makeRequest, hok, hjson]

/-- Helper: the configure tool bypasses the gate in either state; the
outcome is that of `handleConfigure`. -/
theorem callTool_configure (st : Option ShortcutAPI) (world : World) (args : JsonValue) :
    ShortcutMCPServer.callTool st world "shortcut_configure" args =
      { state := (ShortcutMCPServer.handleConfigure world args).1,
        trace := (ShortcutMCPServer.handleConfigure world args).2.1,
        result := (ShortcutMCPServer.handleConfigure world args).2.2.mapError
          (ShortcutMCPServer.wrapThrown "shortcut_configure") } := by
  cases st <;> rfl

/-- Helper: `handleConfigure` when the identity probe throws message
`msg`: client nulled, one probe request, `InvalidRequest` wrapping the
cause. -/
theorem handleConfigure_fail (world : World) (args : JsonValue) (msg : String)
    (hfail : ((configApi args).getCurrentMember world).2 = .error msg) :
    ShortcutMCPServer.handleConfigure world args =
      (none, [probeRequest args],
        .error (.mcp { code := .InvalidRequest,
                       message := "Failed to configure Shortcut API: " ++ msg })) := by
  have ht : ((configApi args).getCurrentMember world).1 = [probeRequest args] :=
    makeRequest_trace (configApi args) world "GET" "/member" none
  simp [ShortcutMCPServer.handleConfigure, hfail, ht]

/-- Helper: `handleConfigure` when the identity probe succeeds: client
committed, one probe request, success text. -/
theorem handleConfigure_ok (world : World) (args : JsonValue) (v : JsonValue)
    (hok : ((configApi args).getCurrentMember world).2 = .ok v) :
    ShortcutMCPServer.handleConfigure world args =
      (some (configApi args), [probeRequest args],
        .ok (textResult "Shortcut API configured successfully!")) := by
  have ht : ((configApi args).getCurrentMember world).1 = [probeRequest args] :=
    makeRequest_trace (configApi args) world "GET" "/member" none
  simp [ShortcutMCPServer.handleConfigure, hok, ht]

/-- C1 (amended): for every tool name not in the fixed catalog, calling it
while Configured yields a Method-Not-Found error naming the tool (and no
request is issued); while Unconfigured, the configuration gate fires first
and the call yields Invalid-Request instead. -/
theorem unknown_tool_method_not_found (api : ShortcutAPI) (world : World)
    (name : String) (args : JsonValue) (h : name ∉ catalogNames) :
    ShortcutMCPServer.callTool (some api) world name args =
      { state := some api, trace := [],
        result := .error { code := .MethodNotFound, message := "Unknown tool: " ++ name } } ∧
    ShortcutMCPServer.callTool none world name args =
      { state := none, trace := [],
        result := .error { code := .InvalidRequest, message := notConfiguredMessage } } := by
  simp only [catalogNames, List.mem_cons, List.mem_singleton] at h
  push_neg at h
  obtain ⟨h1, h2, h3, h4, h5, h6, h7, h8, h9, h10, h11, h12, h13, h14, h15, h16, h17,
    h18, h19, h20, h21, h22⟩ := h
  refine ⟨?_, ?_⟩
  · simp [ShortcutMCPServer.callTool, ShortcutMCPServer.dispatchConfigured,
      ShortcutMCPServer.wrapThrown, Except.mapError,
      h1, h2, h3, h4, h5, h6, h7, h8, h9, h10, h11, h12, h13, h14, h15, h16, h17,
      h18, h19, h20, h21, h22.1]
  · simp [ShortcutMCPServer.callTool, h1]

/-- C1 counterexample: calling the unknown tool `not_a_tool` while the
dispatcher is Unconfigured yields Invalid-Request (the configuration-gate
error), not the Method-Not-Found error the claim asserts for both states. -/
theorem unknown_tool_unconfigured_counterexample :
    (ShortcutMCPServer.callTool none failWorld "not_a_tool" (JsonValue.obj [])).result =
      .error { code := .InvalidRequest, message := notConfiguredMessage } ∧
    ErrorCode.InvalidRequest ≠ ErrorCode.MethodNotFound :=
  ⟨rfl, by decide⟩

/-- C1 witness: the amended theorem applied to the concrete unknown name
`definitely_not_a_tool` in the Configured state. -/
theorem unknown_tool_method_not_found_witness :
    ("definitely_not_a_tool" ∉ catalogNames) ∧
    (ShortcutMCPServer.callTool (some sampleApi) failWorld "definitely_not_a_tool"
        (JsonValue.obj [])).result =
      .error { code := .MethodNotFound, message := "Unknown tool: definitely_not_a_tool" } :=
  ⟨by decide, by
    rw [(unknown_tool_method_not_found sampleApi failWorld "definitely_not_a_tool"
      (JsonValue.obj []) (by decide)).1]
    rfl⟩

/-- C2: every catalog tool other than the configure tool, called while the
dispatcher is Unconfigured, yields the Invalid-Request error instructing
the caller to configure first, the state is unchanged, and no HTTP request
is issued (the trace is empty). -/
theorem unconfigured_tool_gated (world : World) (name : String) (args : JsonValue)
    (_hmem : name ∈ catalogNames) (hne : name ≠ "shortcut_configure") :
    ShortcutMCPServer.callTool none world name args =
      { state := none, trace := [],
        result := .error { code := .InvalidRequest, message := notConfiguredMessage } } := by
  simp [ShortcutMCPServer.callTool, hne]

/-- C2 witness: the gate theorem applied to `shortcut_get_story` while
Unconfigured. -/
theorem unconfigured_tool_gated_witness :
    ("shortcut_get_story" ∈ catalogNames ∧ "shortcut_get_story" ≠ "shortcut_configure") ∧
    ShortcutMCPServer.callTool none failWorld "shortcut_get_story" (JsonValue.obj []) =
      { state := none, trace := [],
        result := .error { code := .InvalidRequest, message := notConfiguredMessage } } :=
  ⟨⟨by decide, by decide⟩,
    unconfigured_tool_gated failWorld "shortcut_get_story" (JsonValue.obj [])
      (by decide) (by decide)⟩

/-- Concrete configure arguments used by witnesses: a bad token, no base
URL override. -/
def cfgFailArgs : JsonValue := .obj [("apiToken", .str "badtok")]

/-- C3: a configure call whose identity probe fails throws Invalid-Request
embedding the underlying cause, leaves the dispatcher Unconfigured (from
any prior state), and any subsequent non-configure call then fails with
the Invalid-Request gate error. -/
theorem configure_probe_failure (st : Option ShortcutAPI) (world : World)
    (args : JsonValue) (msg : String)
    (hfail : ((configApi args).getCurrentMember world).2 = .error msg) :
    ShortcutMCPServer.callTool st world "shortcut_configure" args =
      { state := none, trace := [probeRequest args],
        result := .error { code := .InvalidRequest,
                           message := "Failed to configure Shortcut API: " ++ msg } } ∧
    ∀ (world2 : World) (name2 : String) (args2 : JsonValue),
      name2 ≠ "shortcut_configure" →
      (ShortcutMCPServer.callTool
          (ShortcutMCPServer.callTool st world "shortcut_configure" args).state
          world2 name2 args2).result =
        .error { code := .InvalidRequest, message := notConfiguredMessage } := by
  have h := handleConfigure_fail world args msg hfail
  have hc := callTool_configure st world args
  rw [h] at hc
  refine ⟨hc.trans rfl, ?_⟩
  intro world2 name2 args2 hne
  rw [hc]
  simp [ShortcutMCPServer.callTool, hne]

/-- C3 witness: a configure call against the failing remote, followed by a
gated `shortcut_get_story` call. -/
theorem configure_probe_failure_witness :
    (((configApi cfgFailArgs).getCurrentMember failWorld).2 =
        .error "Shortcut API error (500): boom") ∧
    ShortcutMCPServer.callTool none failWorld "shortcut_configure" cfgFailArgs =
      { state := none, trace := [probeRequest cfgFailArgs],
        result := .error { code := .InvalidRequest,
                           message := "Failed to configure Shortcut API: Shortcut API error (500): boom" } } ∧
    (ShortcutMCPServer.callTool
        (ShortcutMCPServer.callTool none failWorld "shortcut_configure" cfgFailArgs).state
        failWorld "shortcut_get_story" (JsonValue.obj [])).result =
      .error { code := .InvalidRequest, message := notConfiguredMessage } := by
  have h := configure_probe_failure none failWorld cfgFailArgs
    "Shortcut API error (500): boom" rfl
  exact ⟨rfl, h.1, h.2 failWorld "shortcut_get_story" (JsonValue.obj []) (by decide)⟩

/-- C8: a failed configure call discards a previously committed client:
starting Configured with any old client, a configure whose identity probe
fails ends Unconfigured, the single probe request is the one built from
the new prospective configuration, and the old client is never restored. -/
theorem configure_failure_discards_old_client (oldApi : ShortcutAPI) (world : World)
    (args : JsonValue) (msg : String)
    (hfail : ((configApi args).getCurrentMember world).2 = .error msg) :
    ShortcutMCPServer.callTool (some oldApi) world "shortcut_configure" args =
      { state := none, trace := [probeRequest args],
        result := .error { code := .InvalidRequest,
                           message := "Failed to configure Shortcut API: " ++ msg } } := by
  have h := handleConfigure_fail world args msg hfail
  exact (callTool_configure (some oldApi) world args).trans (by rw [h]; rfl)

/-- C8 witness: reconfiguring from a committed sample client with a bad
token against the failing remote ends Unconfigured, with the probe request
spelled out. -/
theorem configure_failure_discards_old_client_witness :
    (((configApi cfgFailArgs).getCurrentMember failWorld).2 =
        .error "Shortcut API error (500): boom") ∧
    ShortcutMCPServer.callTool (some sampleApi) failWorld "shortcut_configure" cfgFailArgs =
      { state := none,
        trace := [{ method := "GET",
                    url := "https://api.app.shortcut.com/api/v3/member",
                    headers := [("Content-Type", "application/json"),
                                ("Shortcut-Token", "badtok")],
                    body := none }],
        result := .error { code := .InvalidRequest,
                           message := "Failed to configure Shortcut API: Shortcut API error (500): boom" } } := by
  refine ⟨rfl, ?_⟩
  rw [configure_failure_discards_old_client sampleApi failWorld cfgFailArgs
    "Shortcut API error (500): boom" rfl]
  rfl

/-- A remote on which every request succeeds with status 200 but an empty
body, so `response.json()` rejects. -/
def emptyBodyOkWorld : World := fun _ =>
  { status := 200, text := "", json := .error "Unexpected end of JSON input" }

/-- C5 counterexample: a delete_story call whose HTTP DELETE succeeds
(status 200) but returns no body does not produce the confirmation text:
`makeRequest` unconditionally parses the response body, so the rejected
parse surfaces as Internal-Error.  The operation therefore does require a
response body. -/
theorem delete_story_requires_body_counterexample :
    (emptyBodyOkWorld (sampleApi.requestFor "DELETE" "/stories/7" none)).ok = true ∧
    (ShortcutMCPServer.callTool (some sampleApi) emptyBodyOkWorld "shortcut_delete_story"
        (JsonValue.obj [("id", JsonValue.num 7)])).result =
      .error { code := .InternalError,
               message := "Error executing shortcut_delete_story: Unexpected end of JSON input" } :=
  ⟨rfl, rfl⟩

/-- C5 (amended): a delete_story call whose HTTP DELETE succeeds with a
JSON-parseable body returns with the parsed body discarded, the tool
returns the confirmation text containing the identifier, and no further
HTTP request is issued (the trace is exactly the one DELETE). -/
theorem delete_story_ok (api : ShortcutAPI) (world : World) (i : Int) (v : JsonValue)
    (hok : (world (api.requestFor "DELETE" ("/stories/" ++ toString i) none)).ok = true)
    (hjson : (world (api.requestFor "DELETE" ("/stories/" ++ toString i) none)).json = .ok v) :
    ShortcutMCPServer.callTool (some api) world "shortcut_delete_story"
        (JsonValue.obj [("id", JsonValue.num i)]) =
      { state := some api,
        trace := [api.requestFor "DELETE" ("/stories/" ++ toString i) none],
        result := .ok (textResult ("Story " ++ toString i ++ " deleted successfully!")) } ∧
    (∃ pre post, "Story " ++ toString i ++ " deleted successfully!" =
      pre ++ toString i ++ post) := by
  refine ⟨?_, "Story ", " deleted successfully!", rfl⟩
  simp [ShortcutMCPServer.callTool, ShortcutMCPServer.dispatchConfigured,
    ShortcutMCPServer.handleDeleteStory, ShortcutAPI.deleteStory, JsonValue.get,
    jsToString, List.lookup, Except.map, Except.mapError, ShortcutMCPServer.wrapThrown,
    makeRequest_ok world api "DELETE" ("/stories/" ++ toString i) none v hok hjson]

/-- A remote on which every request succeeds with an empty JSON object
body. -/
def jsonObjWorld : World := fun _ =>
  { status := 200, text := "\x7b\x7d", json := .ok (JsonValue.obj []) }

/-- C5 witness: deleting story 7 against a remote whose DELETE response is
a parseable empty object. -/
theorem delete_story_ok_witness :
    ((jsonObjWorld (sampleApi.requestFor "DELETE" "/stories/7" none)).ok = true ∧
     (jsonObjWorld (sampleApi.requestFor "DELETE" "/stories/7" none)).json =
       .ok (JsonValue.obj [])) ∧
    (ShortcutMCPServer.callTool (some sampleApi) jsonObjWorld "shortcut_delete_story"
        (JsonValue.obj [("id", JsonValue.num 7)])).result =
      .ok (textResult "Story 7 deleted successfully!") := by
  refine ⟨⟨rfl, rfl⟩, ?_⟩
  rw [(delete_story_ok sampleApi jsonObjWorld 7 (JsonValue.obj []) rfl rfl).1]
  rfl

/-- C6: an update_story call with an argument object carrying an id field
issues exactly one HTTP PUT request to /stories/ followed by the
stringified id, and the JSON body of that request is the serialization of
exactly the argument fields other than id, in either remote outcome. -/
theorem update_story_request (api : ShortcutAPI) (world : World)
    (fields : List (String × JsonValue)) (idv : JsonValue)
    (hid : fields.lookup "id" = some idv) :
    (ShortcutMCPServer.callTool (some api) world "shortcut_update_story"
        (JsonValue.obj fields)).trace =
      [api.requestFor "PUT" ("/stories/" ++ jsToString idv)
        (stringifyVal (JsonValue.obj (fields.filter (fun p => p.1 ≠ "id"))))] := by
  simp [ShortcutMCPServer.callTool, ShortcutMCPServer.dispatchConfigured,
    ShortcutMCPServer.handleUpdateStory, ShortcutMCPServer.restWithoutId,
    ShortcutAPI.updateStory, JsonValue.get, hid, makeRequest_trace]

/-- C6 witness: updating story 42 with one further field `estimate` issues
one PUT to /stories/42 whose body is exactly the estimate field. -/
theorem update_story_request_witness :
    ([("id", JsonValue.num 42), ("estimate", JsonValue.num 3)].lookup "id" =
        some (JsonValue.num 42)) ∧
    (ShortcutMCPServer.callTool (some sampleApi) failWorld "shortcut_update_story"
        (JsonValue.obj [("id", JsonValue.num 42), ("estimate", JsonValue.num 3)])).trace =
      [{ method := "PUT",
         url := "https://api.app.shortcut.com/api/v3/stories/42",
         headers := [("Content-Type", "application/json"), ("Shortcut-Token", "tok")],
         body := some "\x7b\"estimate\":3\x7d" }] := by
  refine ⟨rfl, ?_⟩
  rw [update_story_request sampleApi failWorld
    [("id", JsonValue.num 42), ("estimate", JsonValue.num 3)] (JsonValue.num 42) rfl]
  rfl

/-- C7: a configure call whose identity probe succeeds commits the
prospective client, returns the success text, and a subsequent
get_current_member call against the same deterministic remote succeeds and
returns the same identity payload the probe fetched, pretty-printed. -/
theorem configure_probe_success (st : Option ShortcutAPI) (world : World)
    (args : JsonValue) (v : JsonValue)
    (hok : ((configApi args).getCurrentMember world).2 = .ok v) :
    ShortcutMCPServer.callTool st world "shortcut_configure" args =
      { state := some (configApi args), trace := [probeRequest args],
        result := .ok (textResult "Shortcut API configured successfully!") } ∧
    ShortcutMCPServer.callTool
        (ShortcutMCPServer.callTool st world "shortcut_configure" args).state
        world "shortcut_get_current_member" (JsonValue.obj []) =
      { state := some (configApi args), trace := [probeRequest args],
        result := .ok (textResult (prettyJson v)) } := by
  have h := handleConfigure_ok world args v hok
  have hc := callTool_configure st world args
  rw [h] at hc
  have h1 : ShortcutMCPServer.callTool st world "shortcut_configure" args =
      { state := some (configApi args), trace := [probeRequest args],
        result := .ok (textResult "Shortcut API configured successfully!") } := hc.trans rfl
  have ht : ((configApi args).getCurrentMember world).1 = [probeRequest args] :=
    makeRequest_trace (configApi args) world "GET" "/member" none
  refine ⟨h1, ?_⟩
  rw [h1]
  simp [ShortcutMCPServer.callTool, ShortcutMCPServer.dispatchConfigured,
    ShortcutMCPServer.handleGetCurrentMember, hok, ht, Except.map, Except.mapError]

/-- Success arguments for the configure witness: the sample token, no base
URL override. -/
def cfgOkArgs : JsonValue := .obj [("apiToken", .str "tok")]

/-- A remote whose every response is status 200 with a one-field member
object. -/
def memberWorld : World := fun _ =>
  { status := 200, text := "\x7b\"id\":\"m1\"\x7d",
    json := .ok (JsonValue.obj [("id", JsonValue.str "m1")]) }

/-- C7 witness: configuring against the member remote succeeds and the
subsequent get_current_member call returns the pretty-printed identity
payload the probe fetched. -/
theorem configure_probe_success_witness :
    (((configApi cfgOkArgs).getCurrentMember memberWorld).2 =
        .ok (JsonValue.obj [("id", JsonValue.str "m1")])) ∧
    (ShortcutMCPServer.callTool none memberWorld "shortcut_configure" cfgOkArgs).result =
      .ok (textResult "Shortcut API configured successfully!") ∧
    (ShortcutMCPServer.callTool
        (ShortcutMCPServer.callTool none memberWorld "shortcut_configure" cfgOkArgs).state
        memberWorld "shortcut_get_current_member" (JsonValue.obj [])).result =
      .ok (textResult "\x7b\n  \"id\": \"m1\"\n\x7d") := by
  have h := configure_probe_success none memberWorld cfgOkArgs
    (JsonValue.obj [("id", JsonValue.str "m1")]) rfl
  refine ⟨rfl, by rw [h.1], by rw [h.2]; rfl⟩

/-- C9: in get_stories, falsy filter values (project_id 0 and
includes_description false) are omitted from the request URL query string
(the issued URL is the bare /stories/search) yet both fields are included
in the JSON request body, so the two encodings of the same argument object
disagree. -/
theorem get_stories_falsy_filter_divergence :
    (ShortcutMCPServer.callTool (some sampleApi) failWorld "shortcut_get_stories"
        (JsonValue.obj [("project_id", JsonValue.num 0),
                        ("includes_description", JsonValue.bool false)])).trace =
      [{ method := "POST",
         url := "https://api.app.shortcut.com/api/v3/stories/search",
         headers := [("Content-Type", "application/json"), ("Shortcut-Token", "tok")],
         body := some "\x7b\"project_id\":0,\"includes_description\":false\x7d" }] := by
  rfl

/-- Helper: whatever the probe outcome, `handleConfigure` issues exactly
the one probe request. -/
theorem handleConfigure_trace (world : World) (args : JsonValue) :
    (ShortcutMCPServer.handleConfigure world args).2.1 = [probeRequest args] := by
  have ht := makeRequest_trace (configApi args) world "GET" "/member" none
  cases h : ((configApi args).makeRequest world "GET" "/member" none).2 with
  | ok v => simp [ShortcutMCPServer.handleConfigure, ShortcutAPI.getCurrentMember, h,
      ht, probeRequest]
  | error e => simp [ShortcutMCPServer.handleConfigure, ShortcutAPI.getCurrentMember, h,
      ht, probeRequest]

/-- C10: the dispatcher performs no local validation of arguments against
the declared input schemas: for every catalog tool whose schema marks a
field required (configure with apiToken; get_story, update_story,
delete_story, get_epic, update_epic, get_project, get_iteration with id;
create_story, create_epic, create_project, create_label, create_iteration
with their required name and date fields; search with query), calling it
with an empty argument object is not rejected locally: the HTTP request is
still issued, with `undefined` interpolated into the URL path (or the
token header, or the query string) and the empty object serialized as the
body of the write tools; on get_story a parseable 2xx response then
passes straight through to the caller. -/
theorem required_field_omitted_not_validated (api : ShortcutAPI) (world : World) :
    ((ShortcutMCPServer.callTool (some api) world "shortcut_configure"
        (JsonValue.obj [])).trace = [probeRequest (JsonValue.obj [])]) ∧
    (probeRequest (JsonValue.obj []) =
      { method := "GET",
        url := "https://api.app.shortcut.com/api/v3/member",
        headers := [("Content-Type", "application/json"), ("Shortcut-Token", "undefined")],
        body := none }) ∧
    ((ShortcutMCPServer.callTool (some api) world "shortcut_get_story"
        (JsonValue.obj [])).trace = [api.requestFor "GET" "/stories/undefined" none]) ∧
    ((ShortcutMCPServer.callTool (some api) world "shortcut_update_story"
        (JsonValue.obj [])).trace =
      [api.requestFor "PUT" "/stories/undefined" (some "\x7b\x7d")]) ∧
    ((ShortcutMCPServer.callTool (some api) world "shortcut_delete_story"
        (JsonValue.obj [])).trace = [api.requestFor "DELETE" "/stories/undefined" none]) ∧
    ((ShortcutMCPServer.callTool (some api) world "shortcut_get_epic"
        (JsonValue.obj [])).trace = [api.requestFor "GET" "/epics/undefined" none]) ∧
    ((ShortcutMCPServer.callTool (some api) world "shortcut_update_epic"
        (JsonValue.obj [])).trace =
      [api.requestFor "PUT" "/epics/undefined" (some "\x7b\x7d")]) ∧
    ((ShortcutMCPServer.callTool (some api) world "shortcut_get_project"
        (JsonValue.obj [])).trace = [api.requestFor "GET" "/projects/undefined" none]) ∧
    ((ShortcutMCPServer.callTool (some api) world "shortcut_get_iteration"
        (JsonValue.obj [])).trace = [api.requestFor "GET" "/iterations/undefined" none]) ∧
    ((ShortcutMCPServer.callTool (some api) world "shortcut_create_story"
        (JsonValue.obj [])).trace = [api.requestFor "POST" "/stories" (some "\x7b\x7d")]) ∧
    ((ShortcutMCPServer.callTool (some api) world "shortcut_create_epic"
        (JsonValue.obj [])).trace = [api.requestFor "POST" "/epics" (some "\x7b\x7d")]) ∧
    ((ShortcutMCPServer.callTool (some api) world "shortcut_create_project"
        (JsonValue.obj [])).trace = [api.requestFor "POST" "/projects" (some "\x7b\x7d")]) ∧
    ((ShortcutMCPServer.callTool (some api) world "shortcut_create_label"
        (JsonValue.obj [])).trace = [api.requestFor "POST" "/labels" (some "\x7b\x7d")]) ∧
    ((ShortcutMCPServer.callTool (some api) world "shortcut_create_iteration"
        (JsonValue.obj [])).trace = [api.requestFor "POST" "/iterations" (some "\x7b\x7d")]) ∧
    ((ShortcutMCPServer.callTool (some api) world "shortcut_search"
        (JsonValue.obj [])).trace =
      [api.requestFor "GET" "/search?query=undefined&detail=full" none]) ∧
    (∀ v : JsonValue,
      (world (api.requestFor "GET" "/stories/undefined" none)).ok = true →
      (world (api.requestFor "GET" "/stories/undefined" none)).json = .ok v →
      (ShortcutMCPServer.callTool (some api) world "shortcut_get_story"
          (JsonValue.obj [])).result = .ok (textResult (prettyJson v))) := by
  have hempty : stringifyVal (JsonValue.obj []) = some "\x7b\x7d" := by decide
  have hq : ("/search?query=" ++ encodeURIComponent (jsToString JsonValue.undefined) ++
      "&detail=" ++ jsToString (JsonValue.str "full")) =
      "/search?query=undefined&detail=full" := by decide
  refine ⟨?_, by decide, ?_, ?_, ?_, ?_, ?_, ?_, ?_, ?_, ?_, ?_, ?_, ?_, ?_, ?_⟩
  · rw [callTool_configure (some api) world (JsonValue.obj [])]
    exact handleConfigure_trace world (JsonValue.obj [])
  · simp [ShortcutMCPServer.callTool, ShortcutMCPServer.dispatchConfigured,
      ShortcutMCPServer.handleGetStory, ShortcutAPI.getStory, JsonValue.get,
      jsToString, makeRequest_trace]
  · simp [ShortcutMCPServer.callTool, ShortcutMCPServer.dispatchConfigured,
      ShortcutMCPServer.handleUpdateStory, ShortcutMCPServer.restWithoutId,
      ShortcutAPI.updateStory, JsonValue.get, jsToString, hempty, makeRequest_trace]
  · simp [ShortcutMCPServer.callTool, ShortcutMCPServer.dispatchConfigured,
      ShortcutMCPServer.handleDeleteStory, ShortcutAPI.deleteStory, JsonValue.get,
      jsToString, makeRequest_trace]
  · simp [ShortcutMCPServer.callTool, ShortcutMCPServer.dispatchConfigured,
      ShortcutMCPServer.handleGetEpic, ShortcutAPI.getEpic, JsonValue.get,
      jsToString, makeRequest_trace]
  · simp [ShortcutMCPServer.callTool, ShortcutMCPServer.dispatchConfigured,
      ShortcutMCPServer.handleUpdateEpic, ShortcutMCPServer.restWithoutId,
      ShortcutAPI.updateEpic, JsonValue.get, jsToString, hempty, makeRequest_trace]
  · simp [ShortcutMCPServer.callTool, ShortcutMCPServer.dispatchConfigured,
      ShortcutMCPServer.handleGetProject, ShortcutAPI.getProject, JsonValue.get,
      jsToString, makeRequest_trace]
  · simp [ShortcutMCPServer.callTool, ShortcutMCPServer.dispatchConfigured,
      ShortcutMCPServer.handleGetIteration, ShortcutAPI.getIteration, JsonValue.get,
      jsToString, makeRequest_trace]
  · simp [ShortcutMCPServer.callTool, ShortcutMCPServer.dispatchConfigured,
      ShortcutMCPServer.handleCreateStory, ShortcutAPI.createStory, hempty,
      makeRequest_trace]
  · simp [ShortcutMCPServer.callTool, ShortcutMCPServer.dispatchConfigured,
      ShortcutMCPServer.handleCreateEpic, ShortcutAPI.createEpic, hempty,
      makeRequest_trace]
  · simp [ShortcutMCPServer.callTool, ShortcutMCPServer.dispatchConfigured,
      ShortcutMCPServer.handleCreateProject, ShortcutAPI.createProject, hempty,
      makeRequest_trace]
  · simp [ShortcutMCPServer.callTool, ShortcutMCPServer.dispatchConfigured,
      ShortcutMCPServer.handleCreateLabel, ShortcutAPI.createLabel, hempty,
      makeRequest_trace]
  · simp [ShortcutMCPServer.callTool, ShortcutMCPServer.dispatchConfigured,
      ShortcutMCPServer.handleCreateIteration, ShortcutAPI.createIteration, hempty,
      makeRequest_trace]
  · simp [ShortcutMCPServer.callTool, ShortcutMCPServer.dispatchConfigured,
      ShortcutMCPServer.handleSearch, ShortcutAPI.search, JsonValue.get,
      makeRequest_trace, hq]
  · intro v hok hjson
    simp [ShortcutMCPServer.callTool, ShortcutMCPServer.dispatchConfigured,
      ShortcutMCPServer.handleGetStory, ShortcutAPI.getStory, JsonValue.get,
      jsToString, Except.map, Except.mapError,
      makeRequest_ok world api "GET" "/stories/undefined" none v hok hjson]

/-- C10 witness: with the sample client and the empty-object remote, the
empty-argument get_story and update_story calls issue the undefined-path
requests, and the get_story response passes through. -/
theorem required_field_omitted_not_validated_witness :
    (ShortcutMCPServer.callTool (some sampleApi) jsonObjWorld "shortcut_get_story"
        (JsonValue.obj [])).trace =
      [{ method := "GET",
         url := "https://api.app.shortcut.com/api/v3/stories/undefined",
         headers := [("Content-Type", "application/json"), ("Shortcut-Token", "tok")],
         body := none }] ∧
    (ShortcutMCPServer.callTool (some sampleApi) jsonObjWorld "shortcut_update_story"
        (JsonValue.obj [])).trace =
      [{ method := "PUT",
         url := "https://api.app.shortcut.com/api/v3/stories/undefined",
         headers := [("Content-Type", "application/json"), ("Shortcut-Token", "tok")],
         body := some "\x7b\x7d" }] ∧
    ((jsonObjWorld (sampleApi.requestFor "GET" "/stories/undefined" none)).ok = true ∧
     (jsonObjWorld (sampleApi.requestFor "GET" "/stories/undefined" none)).json =
       .ok (JsonValue.obj [])) ∧
    (ShortcutMCPServer.callTool (some sampleApi) jsonObjWorld "shortcut_get_story"
        (JsonValue.obj [])).result = .ok (textResult "\x7b\x7d") := by
  obtain ⟨hc, hcl, hgs, hus, hds, hge, hue, hgp, hgi, hcs, hce, hcp, hclb, hci, hse, hpass⟩ :=
    required_field_omitted_not_validated sampleApi jsonObjWorld
  exact ⟨by rw [hgs]; rfl, by rw [hus]; rfl, ⟨rfl, rfl⟩,
    by rw [hpass (JsonValue.obj []) rfl rfl]; rfl⟩

/-- Helper: every non-configure handler has the shape of one `makeRequest`
whose result is mapped into a text payload; against a uniformly failing
remote the call issues exactly that one request and surfaces
Internal-Error wrapping the tool name and the client message. -/
theorem callTool_known_tool_fail (api : ShortcutAPI) (world : World) (name : String)
    (args : JsonValue) (m ep : String) (b : Option String) (f : JsonValue → ToolResult)
    (hw : ∀ r, (world r).ok = false)
    (hne : name ≠ "shortcut_configure")
    (hd : ShortcutMCPServer.dispatchConfigured api world name args =
      ((api.makeRequest world m ep b).1,
        ((api.makeRequest world m ep b).2.mapError JsError.err).map f)) :
    ∃ req, (ShortcutMCPServer.callTool (some api) world name args).trace = [req] ∧
      (ShortcutMCPServer.callTool (some api) world name args).result =
        .error { code := .InternalError,
                 message := "Error executing " ++ name ++ ": " ++
                   ("Shortcut API error (" ++ toString (world req).status ++ "): " ++
                     (world req).text) } := by
  refine ⟨api.requestFor m ep b, ?_, ?_⟩ <;>
    simp [ShortcutMCPServer.callTool, hne, hd, makeRequest_fail world hw,
      Except.map, Except.mapError, ShortcutMCPServer.wrapThrown]

/-- C4: for every catalog tool other than configure, when the remote
returns a non-success status the client operation fails with the message
carrying the status code and the raw body text, exactly one request is
issued (no retry), and the failure reaches the caller as Internal-Error
wrapping the tool name and that client message. -/
theorem remote_error_surfaces_internal (api : ShortcutAPI) (world : World)
    (name : String) (args : JsonValue)
    (hmem : name ∈ catalogNames) (hne : name ≠ "shortcut_configure")
    (hw : ∀ r, (world r).ok = false) :
    ∃ req, (ShortcutMCPServer.callTool (some api) world name args).trace = [req] ∧
      (ShortcutMCPServer.callTool (some api) world name args).result =
        .error { code := .InternalError,
                 message := "Error executing " ++ name ++ ": " ++
                   ("Shortcut API error (" ++ toString (world req).status ++ "): " ++
                     (world req).text) } := by
  simp only [catalogNames, List.mem_cons, List.not_mem_nil, or_false] at hmem
  rcases hmem with rfl | rfl | rfl | rfl | rfl | rfl | rfl | rfl | rfl | rfl | rfl |
    rfl | rfl | rfl | rfl | rfl | rfl | rfl | rfl | rfl | rfl | rfl
  · exact absurd rfl hne
  all_goals exact callTool_known_tool_fail api world _ args _ _ _ _ hw hne rfl

/-- C4 witness: calling get_epics against the uniformly failing remote
surfaces the wrapped 500 error. -/
theorem remote_error_surfaces_internal_witness :
    ("shortcut_get_epics" ∈ catalogNames ∧ "shortcut_get_epics" ≠ "shortcut_configure" ∧
      ∀ r, (failWorld r).ok = false) ∧
    ∃ req, (ShortcutMCPServer.callTool (some sampleApi) failWorld "shortcut_get_epics"
        (JsonValue.obj [])).trace = [req] ∧
      (ShortcutMCPServer.callTool (some sampleApi) failWorld "shortcut_get_epics"
          (JsonValue.obj [])).result =
        .error { code := .InternalError,
                 message := "Error executing shortcut_get_epics: Shortcut API error (500): boom" } := by
  refine ⟨⟨by decide, by decide, fun r => rfl⟩, ?_⟩
  obtain ⟨req, h1, h2⟩ := remote_error_surfaces_internal sampleApi failWorld
    "shortcut_get_epics" (JsonValue.obj []) (by decide) (by decide) (fun r => rfl)
  refine ⟨req, h1, ?_⟩
  rw [h2]
  simp only [failWorld]
  rfl
